import Mathlib

/-!
Verification of the untangle-gaming-hub credit ledger and session accounting
engine, as implemented in `backend/app/services/purchases_service.py`,
`backend/app/services/sessions_service.py` and `backend/app/utils.py`.

The services are embedded shallowly: the database is an explicit state record
of association lists keyed by generated ids; SQLAlchemy's `query(...).first()`
is first-match lookup; `DECIMAL` hour quantities are exact rationals (the
source only ever manipulates exact two-decimal quantities); `date`/`datetime`
values are integer day numbers resp. integer second counts, with the ambient
clock (`date.today()`, `datetime.utcnow()`) passed in as an explicit argument.
Exceptions become an error type with one constructor per raise site; raise
sites that have committed state before raising return the mutated state
alongside the error, exactly as the source commits before raising.
-/

deriving instance DecidableEq for Except

namespace Untangle

/-- First-match lookup in an association list: the embedding of
`db.query(T).filter(T.id == k).first()`. -/
def lookupA {β : Type} (k : String) : List (String × β) → Option β
  | [] => none
  | (k', v) :: rest => if k' = k then some v else lookupA k rest

/-- Update every row whose key is `k` (ids are unique in the database, so at
most one row is affected; lookup observes the first). -/
def updateAssoc {β : Type} (k : String) (f : β → β) : List (String × β) → List (String × β)
  | [] => []
  | (k', v) :: rest =>
      if k' = k then (k', f v) :: updateAssoc k f rest
      else (k', v) :: updateAssoc k f rest

/-! ### Errors

One constructor per raise site of the embedded services.  The spec's error
taxonomy maps onto them as follows: `NotFound` ↔ `notFound`; `Conflict` ↔
`conflict`; `InvalidState` ↔ `alreadyProcessed`, `notYetExpired`,
`planExpired`, `noBalance`, `sessionEnded`; `DeadlineExceeded` ↔
`deadlinePassed`; `PreconditionFailed` ↔ `noRenewal`. -/

inductive SvcError : Type where
  /-- Raised as `NotFoundException(resource, identifier)` -/
  | notFound (resource : String) (identifier : String)
  /-- Raised as `ConflictException` from `start_session` (member already has an active session) -/
  | conflict
  /-- Raised as `ValidationException` in `apply_rollover`: rollover already completed/expired -/
  | alreadyProcessed (status : String)
  /-- Raised as `ValidationException` in `apply_rollover`: purchase not yet expired -/
  | notYetExpired (expiry : Int)
  /-- Raised as `ValidationException` in `apply_rollover`: rollover deadline passed -/
  | deadlinePassed (deadline : Int)
  /-- Raised as `ValidationException` in `apply_rollover`: no renewal within the window -/
  | noRenewal
  /-- Raised as `ValidationException` in `start_session`: member's plan expired -/
  | planExpired
  /-- Raised as `ValidationException` in `start_session`: member has no remaining hours -/
  | noBalance
  /-- Raised as `ValidationException` in `end_session`: session already ended -/
  | sessionEnded (endTime : Int)
  /-- Raised as `ValidationException` in `create_purchase`: hours purchased must be > 0 -/
  | invalidHours
  /-- Raised as `ValidationException` in `create_purchase`: amount paid cannot be negative -/
  | invalidAmount
  deriving Repr, DecidableEq

/-! ### Data model (fields as the services read and write them) -/

/-- The `Member` rows, with the credit-tracking fields used by the services:
`total_hours_granted`, `total_hours_used` and the nullable `expiry_date`. -/
structure Member : Type where
  total_hours_granted : ℚ
  total_hours_used : ℚ
  expiry_date : Option Int
  deriving Repr, DecidableEq

/-- The `balance_hours` hybrid property: `total_hours_granted - total_hours_used`,
recomputed on every read. -/
def Member.balance_hours (m : Member) : ℚ :=
  m.total_hours_granted - m.total_hours_used

/-- The `is_expired` hybrid property: false when `expiry_date` is NULL, else
`date.today() > expiry_date`. -/
def Member.is_expired (today : Int) (m : Member) : Bool :=
  match m.expiry_date with
  | none => false
  | some d => decide (d < today)

/-- The `Purchase` rows as created and mutated by `purchases_service`.  The
service stores `rollover_status` as one of the strings `"pending"`,
`"completed"`, `"expired"` (with `"not_applicable"` representable). -/
structure Purchase : Type where
  member_id : String
  purchase_date : Int
  hours_purchased : ℚ
  amount_paid : ℚ
  payment_method : String
  payment_reference : Option String
  rollover_status : String
  expiry_date : Int
  rollover_deadline : Int
  rollover_hours : Option ℚ
  rollover_applied_at : Option Int
  deriving Repr, DecidableEq

/-- The method `Purchase.calculate_expiry_dates`: `expiry_date = purchase_date + 365`
days and `rollover_deadline = expiry_date + 180` days. -/
def Purchase.calculate_expiry_dates (p : Purchase) : Purchase :=
  let e := p.purchase_date + 365
  { p with expiry_date := e, rollover_deadline := e + 180 }

/-- The `GamingSession` rows as created and mutated by `sessions_service`:
`start_time`/`end_time` in seconds, NULL `end_time` ⇔ active. -/
structure GamingSession : Type where
  member_id : String
  start_time : Int
  end_time : Option Int
  hours_used : ℚ
  station_id : Option String
  notes : Option String
  deriving Repr, DecidableEq

inductive SessionStatus : Type where
  | active
  | completed
  deriving Repr, DecidableEq

/-- The service identifies active sessions by `end_time IS NULL` in every
query; a session's status is this derived view (`active` ⇔ no end time). -/
def GamingSession.status (s : GamingSession) : SessionStatus :=
  match s.end_time with
  | none => .active
  | some _ => .completed

/-- The database state threaded through the services. -/
structure DB : Type where
  members : List (String × Member)
  purchases : List (String × Purchase)
  sessions : List (String × GamingSession)
  deriving Repr, DecidableEq

/-! ### Mobile normalizer (`backend/app/utils.py`, `normalize_mobile`) -/

/-- Step `re.sub` of the normalizer: keep only the digit characters. -/
def stripNonDigits (s : List Char) : List Char :=
  s.filter Char.isDigit

/-- Step `if digits.startswith('63'): digits = digits[2:]`. -/
def dropCountryCode : List Char → List Char
  | '6' :: '3' :: rest => rest
  | ds => ds

/-- Step `if digits.startswith('0'): digits = digits[1:]`. -/
def dropTrunkZero : List Char → List Char
  | '0' :: rest => rest
  | ds => ds

/-- Step `digits[-10:] if len(digits) >= 10 else digits`. -/
def lastTen (ds : List Char) : List Char :=
  if 10 ≤ ds.length then ds.drop (ds.length - 10) else ds

/-- Function `normalize_mobile`: strip non-digits, drop a leading `"63"` country code,
then a leading `"0"` trunk prefix, take the last 10 digits, and require
exactly 10 digits to remain. -/
def normalize_mobile (mobile : String) : Except String String :=
  let digits := stripNonDigits mobile.toList
  let digits := dropCountryCode digits
  let digits := dropTrunkZero digits
  let normalized := lastTen digits
  if normalized.length = 10 then
    .ok (String.mk normalized)
  else
    .error ("Invalid mobile number: " ++ mobile ++ ". Must be 10 digits after normalization.")

/-! ### Python rounding

`round(x, 2)` in `end_session` is Python's round-half-even applied to the
elapsed hours; on exact decimal inputs it is round-half-even of `100·x`. -/

/-- Floor of a rational, computed on the normalized numerator/denominator so
that it reduces in the kernel. -/
def ratFloor (x : ℚ) : Int :=
  x.num.fdiv (x.den : Int)

/-- Round to the nearest integer, ties to the even integer
(Python's `round` on an exact value). -/
def halfEven (x : ℚ) : Int :=
  let f := ratFloor x
  let r := x - (f : ℚ)
  if r < 1/2 then f
  else if 1/2 < r then f + 1
  else if f % 2 = 0 then f else f + 1

/-- Python `round(x, 2)`: round-half-even at two decimal places. -/
def round2 (x : ℚ) : ℚ :=
  (halfEven (x * 100) : ℚ) / 100

/-! ### Purchases service (`backend/app/services/purchases_service.py`) -/

/-- Function `create_purchase`: validate the member and the amounts, build the purchase
with status `"pending"`, compute its expiry dates, grant the hours to the
member and raise the member's expiry date to the later one.  The generated row
id and `date.today()` are passed in explicitly. -/
def create_purchase (today : Int) (db : DB) (new_id : String) (member_id : String)
    (hours_purchased : ℚ) (amount_paid : ℚ) (payment_method : String)
    (payment_reference : Option String) (purchase_date : Option Int) :
    Except SvcError (DB × Purchase) := do
  let some member := lookupA member_id db.members
    | throw (.notFound "Member" member_id)
  if hours_purchased ≤ 0 then
    throw .invalidHours
  if amount_paid < 0 then
    throw .invalidAmount
  let pdate := purchase_date.getD today
  let purchase : Purchase :=
    { member_id := member_id
      purchase_date := pdate
      hours_purchased := hours_purchased
      amount_paid := amount_paid
      payment_method := payment_method
      payment_reference := payment_reference
      rollover_status := "pending"
      expiry_date := 0
      rollover_deadline := 0
      rollover_hours := none
      rollover_applied_at := none }
  let purchase := purchase.calculate_expiry_dates
  let member' :=
    { member with
        total_hours_granted := member.total_hours_granted + hours_purchased
        expiry_date :=
          match member.expiry_date with
          | none => some purchase.expiry_date
          | some e => if e < purchase.expiry_date then some purchase.expiry_date else some e }
  let db' :=
    { db with
        members := updateAssoc member_id (fun _ => member') db.members
        purchases := db.purchases ++ [(new_id, purchase)] }
  pure (db', purchase)

/-- The renewal query of `apply_rollover`: some purchase of the same member
with `purchase_date` in `(expiry_date, rollover_deadline]`. -/
def hasRenewal (db : DB) (p : Purchase) : Bool :=
  db.purchases.any fun row =>
    row.2.member_id == p.member_id &&
    decide (p.expiry_date < row.2.purchase_date) &&
    decide (row.2.purchase_date ≤ p.rollover_deadline)

/-- Function `apply_rollover(purchase_id, force)`.  Returns the result together with
the database state, because the deadline-passed branch commits the transition
to `"expired"` before raising; every other error leaves the state untouched. -/
def apply_rollover (today : Int) (db : DB) (purchase_id : String) (force : Bool) :
    Except SvcError Purchase × DB :=
  match lookupA purchase_id db.purchases with
  | none => (.error (.notFound "Purchase" purchase_id), db)
  | some purchase =>
    if purchase.rollover_status = "completed" ∨ purchase.rollover_status = "expired" then
      (.error (.alreadyProcessed purchase.rollover_status), db)
    else if force = false ∧ today ≤ purchase.expiry_date then
      (.error (.notYetExpired purchase.expiry_date), db)
    else if force = false ∧ purchase.rollover_deadline < today then
      let db' :=
        { db with
            purchases :=
              updateAssoc purchase_id
                (fun _ => { purchase with rollover_status := "expired" }) db.purchases }
      (.error (.deadlinePassed purchase.rollover_deadline), db')
    else if force = false ∧ (lookupA purchase.member_id db.members).isNone then
      (.error (.notFound "Member" purchase.member_id), db)
    else if force = false ∧ hasRenewal db purchase = false then
      (.error .noRenewal, db)
    else
      match lookupA purchase.member_id db.members with
      | none => (.error (.notFound "Member" purchase.member_id), db)
      | some member =>
        let r0 := min member.balance_hours purchase.hours_purchased
        let r := if r0 ≤ 0 then 0 else r0
        let purchase' :=
          { purchase with
              rollover_hours := some r
              rollover_status := "completed"
              rollover_applied_at := some today }
        let member' :=
          { member with total_hours_granted := member.total_hours_granted + r }
        let db' :=
          { db with
              purchases := updateAssoc purchase_id (fun _ => purchase') db.purchases
              members := updateAssoc purchase.member_id (fun _ => member') db.members }
        (.ok purchase', db')

/-- The sweep's selection predicate: `rollover_status == "pending" AND
rollover_deadline < today`. -/
def sweepEligible (today : Int) (p : Purchase) : Bool :=
  p.rollover_status == "pending" && decide (p.rollover_deadline < today)

/-- Function `check_and_expire_rollovers`: set every pending purchase past its
rollover deadline to `"expired"` and return how many were transitioned. -/
def check_and_expire_rollovers (today : Int) (db : DB) : Nat × DB :=
  let count := (db.purchases.filter fun row => sweepEligible today row.2).length
  let purchases' := db.purchases.map fun row =>
    if sweepEligible today row.2 then (row.1, { row.2 with rollover_status := "expired" })
    else row
  (count, { db with purchases := purchases' })

/-! ### Sessions service (`backend/app/services/sessions_service.py`) -/

/-- The active-session query of `start_session`: some session of this member
with `end_time IS NULL`. -/
def hasActiveSession (db : DB) (member_id : String) : Bool :=
  db.sessions.any fun row =>
    row.2.member_id == member_id && row.2.end_time == none

/-- Function `start_session(member_id, station_id, notes)`: member must exist, not be
expired, have positive balance and no active session; on success a fresh
session starts now with no end time and zero consumed hours. -/
def start_session (today : Int) (now : Int) (db : DB) (new_id : String)
    (member_id : String) (station_id : Option String) (notes : Option String) :
    Except SvcError (DB × GamingSession) := do
  let some member := lookupA member_id db.members
    | throw (.notFound "Member" member_id)
  if member.is_expired today then
    throw .planExpired
  if member.balance_hours ≤ 0 then
    throw .noBalance
  if hasActiveSession db member_id then
    throw .conflict
  let session : GamingSession :=
    { member_id := member_id
      start_time := now
      end_time := none
      hours_used := 0
      station_id := station_id
      notes := notes }
  pure ({ db with sessions := db.sessions ++ [(new_id, session)] }, session)

/-- Note appending on session end: new notes are appended after a line break
when the session already has notes.  (Python treats an empty notes string as
"not supplied"; the embedding's `none` plays that role.) -/
def appendNotes (cur : Option String) : Option String → Option String
  | none => cur
  | some n =>
      match cur with
      | some c => some (c ++ "\n" ++ n)
      | none => some n

/-- Function `end_session(session_id, manual_hours, notes)`: the session must exist
and still be open; hours are `manual_hours` when supplied, else the elapsed
seconds divided by 3600 rounded to two decimals; the result is capped at the
member's balance and floored at zero, recorded on the session and added to
the member's `total_hours_used`. -/
def end_session (now : Int) (db : DB) (session_id : String)
    (manual_hours : Option ℚ) (notes : Option String) :
    Except SvcError (DB × GamingSession) := do
  let some session := lookupA session_id db.sessions
    | throw (.notFound "Session" session_id)
  match session.end_time with
  | some t => throw (.sessionEnded t)
  | none =>
    let some member := lookupA session.member_id db.members
      | throw (.notFound "Member" session.member_id)
    let hours0 :=
      match manual_hours with
      | some h => h
      | none => round2 (((now - session.start_time : Int) : ℚ) / 3600)
    let hours1 := if member.balance_hours < hours0 then member.balance_hours else hours0
    let hours := if hours1 < 0 then 0 else hours1
    let session' :=
      { session with
          end_time := some now
          hours_used := hours
          notes := appendNotes session.notes notes }
    let member' :=
      { member with total_hours_used := member.total_hours_used + hours }
    let db' :=
      { db with
          sessions := updateAssoc session_id (fun _ => session') db.sessions
          members := updateAssoc session.member_id (fun _ => member') db.members }
    pure (db', session')

/-- The purchase record built by `create_purchase` (after
`calculate_expiry_dates`) for the given arguments. -/
def mkPurchase (today : Int) (mid : String) (h a : ℚ) (pm : String)
    (pr : Option String) (pd : Option Int) : Purchase :=
  { member_id := mid, purchase_date := pd.getD today, hours_purchased := h, amount_paid := a
    payment_method := pm, payment_reference := pr, rollover_status := "pending"
    expiry_date := pd.getD today + 365, rollover_deadline := pd.getD today + 365 + 180
    rollover_hours := none, rollover_applied_at := none }

/-! ### Concrete fixtures for witnesses and counterexamples -/

/-- A member with 10 hours granted, 4 used (balance 6), plan expiring day 365. -/
def mA : Member :=
  { total_hours_granted := 10, total_hours_used := 4, expiry_date := some 365 }

/-- A member whose granted hours are fully used (balance 0). -/
def mZ : Member :=
  { total_hours_granted := 20, total_hours_used := 20, expiry_date := some 365 }

/-- A member with balance 2 (10 granted, 8 used). -/
def mTwo : Member :=
  { total_hours_granted := 10, total_hours_used := 8, expiry_date := some 365 }

/-- A pending purchase of 5 hours made on day 0 (expiry 365, deadline 545). -/
def pA : Purchase :=
  { member_id := "M1", purchase_date := 0, hours_purchased := 5, amount_paid := 100
    payment_method := "cash", payment_reference := none, rollover_status := "pending"
    expiry_date := 365, rollover_deadline := 545
    rollover_hours := none, rollover_applied_at := none }

/-- A renewal purchase on day 400, inside `pA`'s window `(365, 545]`. -/
def pRenew : Purchase :=
  { member_id := "M1", purchase_date := 400, hours_purchased := 20, amount_paid := 400
    payment_method := "cash", payment_reference := none, rollover_status := "pending"
    expiry_date := 765, rollover_deadline := 945
    rollover_hours := none, rollover_applied_at := none }

/-- Purchase `pA` with the `"not_applicable"` initial rollover status. -/
def pNA : Purchase :=
  { pA with rollover_status := "not_applicable" }

/-- Member `mA` with purchases `pA` and its renewal `pRenew`. -/
def dbA : DB :=
  { members := [("M1", mA)], purchases := [("P1", pA), ("P2", pRenew)], sessions := [] }

/-- Member `mA` with only purchase `pA` (no renewal). -/
def dbB : DB :=
  { members := [("M1", mA)], purchases := [("P1", pA)], sessions := [] }

/-- Member `mA` with the `"not_applicable"` purchase `pNA`. -/
def dbNA : DB :=
  { members := [("M1", mA)], purchases := [("P1", pNA)], sessions := [] }

/-- An active session of member `"M1"` started at second 0. -/
def sAct : GamingSession :=
  { member_id := "M1", start_time := 0, end_time := none, hours_used := 0
    station_id := none, notes := none }

/-- Member `mA` (balance 6) with active session `sAct`. -/
def dbS : DB :=
  { members := [("M1", mA)], purchases := [], sessions := [("S1", sAct)] }

/-- Member `mTwo` (balance 2) with active session `sAct`. -/
def dbTwo : DB :=
  { members := [("M1", mTwo)], purchases := [], sessions := [("S1", sAct)] }

/-- Member `mA` with no sessions (a session may be started). -/
def dbStart : DB :=
  { members := [("M1", mA)], purchases := [], sessions := [] }

/-- Member `mZ` (zero balance) with no sessions. -/
def dbZero : DB :=
  { members := [("M1", mZ)], purchases := [], sessions := [] }

/-- Session `sAct` after being ended at second 12600: 3.50 hours consumed. -/
def sAfter : GamingSession :=
  { member_id := "M1", start_time := 0, end_time := some 12600, hours_used := 7/2
    station_id := none, notes := none }

/-- State `dbS` after ending `sAct` at second 12600: used hours rise from 4 to 7.50. -/
def dbSAfter : DB :=
  { members := [("M1", { total_hours_granted := 10, total_hours_used := 15/2
                         expiry_date := some 365 })]
    purchases := []
    sessions := [("S1", sAfter)] }

/-- Purchase `pA` after a successful rollover on day 500: 5 hours rolled. -/
def pDone : Purchase :=
  { pA with rollover_hours := some 5, rollover_status := "completed"
            rollover_applied_at := some 500 }

/-- State `dbA` after the rollover of `pA` on day 500: granted hours 10 → 15. -/
def dbADone : DB :=
  { members := [("M1", { mA with total_hours_granted := 15 })]
    purchases := [("P1", pDone), ("P2", pRenew)]
    sessions := [] }

/-! ### General lemmas about the embedded operations -/

theorem lookupA_updateAssoc_self {β : Type} (k : String) (f : β → β)
    (l : List (String × β)) :
    lookupA k (updateAssoc k f l) = (lookupA k l).map f := by
  induction l with
  | nil => rfl
  | cons hd tl ih =>
      obtain ⟨k', v⟩ := hd
      by_cases h : k' = k <;> simp [lookupA, updateAssoc, h, ih]

theorem lookupA_updateAssoc_ne {β : Type} (k k' : String) (f : β → β)
    (l : List (String × β)) (hne : k' ≠ k) :
    lookupA k' (updateAssoc k f l) = lookupA k' l := by
  induction l with
  | nil => rfl
  | cons hd tl ih =>
      obtain ⟨k'', v⟩ := hd
      by_cases h1 : k'' = k
      · subst h1
        have h2 : ¬ k'' = k' := fun h => hne (h ▸ rfl)
        simp [lookupA, updateAssoc, h2, ih]
      · simp [lookupA, updateAssoc, h1, ih]

theorem lookupA_append_of_some {β : Type} (k : String) (l l2 : List (String × β)) (v : β)
    (h : lookupA k l = some v) : lookupA k (l ++ l2) = some v := by
  induction l with
  | nil => simp [lookupA] at h
  | cons hd tl ih =>
      obtain ⟨k', w⟩ := hd
      by_cases hk : k' = k
      · rw [lookupA, if_pos hk] at h
        rw [List.cons_append, lookupA, if_pos hk]
        exact h
      · rw [lookupA, if_neg hk] at h
        rw [List.cons_append, lookupA, if_neg hk]
        exact ih h

/-- The two-step deduction guard of `end_session` (cap at the balance, then
floor at zero) computes `max 0 (min hours balance)`. -/
theorem clamp_eq (h b : ℚ) :
    (if (if b < h then b else h) < 0 then (0 : ℚ) else if b < h then b else h) =
      max 0 (min h b) := by
  rcases lt_or_le b h with h1 | h1
  · rw [if_pos h1, min_eq_right h1.le]
    rcases lt_or_le b 0 with h2 | h2
    · rw [if_pos h2, max_eq_left h2.le]
    · rw [if_neg (not_lt.mpr h2), max_eq_right h2]
  · rw [if_neg (not_lt.mpr h1), min_eq_left h1]
    rcases lt_or_le h 0 with h2 | h2
    · rw [if_pos h2, max_eq_left h2.le]
    · rw [if_neg (not_lt.mpr h2), max_eq_right h2]

/-- The flooring step of the rollover amount (`if r <= 0: r = 0`) computes
`max 0 r`. -/
theorem if_nonpos_eq_max (x : ℚ) : (if x ≤ 0 then (0:ℚ) else x) = max 0 x := by
  rcases le_or_lt x 0 with h | h
  · rw [if_pos h, max_eq_left h]
  · rw [if_neg (not_le.mpr h), max_eq_right h.le]

/-- Closed form of a successful `end_session`: when the session exists, is
still open and its member exists, the call returns the updated state. -/
theorem end_session_ok_eq (now : Int) (db : DB) (sid : String)
    (manual_hours : Option ℚ) (notes : Option String) (s : GamingSession) (m : Member)
    (hs : lookupA sid db.sessions = some s) (he : s.end_time = none)
    (hm : lookupA s.member_id db.members = some m) :
    end_session now db sid manual_hours notes =
      (let hours0 :=
        match manual_hours with
        | some h => h
        | none => round2 (((now - s.start_time : Int) : ℚ) / 3600)
      let hours1 := if m.balance_hours < hours0 then m.balance_hours else hours0
      let hours := if hours1 < 0 then 0 else hours1
      let s' :=
        { s with
            end_time := some now
            hours_used := hours
            notes := appendNotes s.notes notes }
      .ok
        ({ db with
            sessions := updateAssoc sid (fun _ => s') db.sessions
            members :=
              updateAssoc s.member_id
                (fun _ => { m with total_hours_used := m.total_hours_used + hours })
                db.members },
         s')) := by
  unfold end_session
  rw [hs]
  simp only [he, hm]
  rfl

/-- C2: ending an active session without `manual_hours` deducts the elapsed
seconds between start and end divided by 3600 rounded to two decimal places,
clamped to the member's current balance and floored at zero; `end_time` is
set, the session's consumed hours are the clamped value, its status becomes
completed, and the member's used hours grow by exactly the clamped value. -/
theorem C2_end_session_timed (now : Int) (db : DB) (sid : String) (notes : Option String)
    (s : GamingSession) (m : Member)
    (hs : lookupA sid db.sessions = some s) (he : s.end_time = none)
    (hm : lookupA s.member_id db.members = some m) :
    (end_session now db sid none notes).toOption.map
        (fun r => (r.2.hours_used, r.2.end_time, r.2.status, lookupA s.member_id r.1.members)) =
      some
        (max 0 (min (round2 (((now - s.start_time : Int) : ℚ) / 3600)) m.balance_hours),
         some now, SessionStatus.completed,
         some { m with total_hours_used := (m.total_hours_used +
                  max 0 (min (round2 (((now - s.start_time : Int) : ℚ) / 3600)) m.balance_hours)) }) := by
  rw [end_session_ok_eq now db sid none notes s m hs he hm]
  simp only [Except.toOption, Option.map, GamingSession.status, lookupA_updateAssoc_self, hm,
    clamp_eq]

/-- Witness for C2: the spec's examples.  A session from second 0 to second
12600 (3h30m) against balance 6 consumes 3.50 and raises used hours from 4 to
7.50; against balance 2 it clamps to exactly 2.00. -/
theorem C2_end_session_timed_witness :
    (lookupA "S1" dbS.sessions = some sAct ∧ sAct.end_time = none ∧
      lookupA sAct.member_id dbS.members = some mA ∧
      (end_session 12600 dbS "S1" none none).toOption.map
          (fun r => (r.2.hours_used, r.2.end_time, r.2.status, lookupA sAct.member_id r.1.members)) =
        some (7/2, some 12600, SessionStatus.completed,
          some { total_hours_granted := 10, total_hours_used := 15/2, expiry_date := some 365 })) ∧
    (lookupA "S1" dbTwo.sessions = some sAct ∧ sAct.end_time = none ∧
      lookupA sAct.member_id dbTwo.members = some mTwo ∧
      (end_session 12600 dbTwo "S1" none none).toOption.map
          (fun r => (r.2.hours_used, r.2.end_time, r.2.status, lookupA sAct.member_id r.1.members)) =
        some (2, some 12600, SessionStatus.completed,
          some { total_hours_granted := 10, total_hours_used := 10, expiry_date := some 365 })) :=
  ⟨⟨rfl, rfl, rfl,
    (C2_end_session_timed 12600 dbS "S1" none sAct mA rfl rfl rfl).trans
      (by with_unfolding_all rfl)⟩,
   ⟨rfl, rfl, rfl,
    (C2_end_session_timed 12600 dbTwo "S1" none sAct mTwo rfl rfl rfl).trans
      (by with_unfolding_all rfl)⟩⟩

/-- C3 counterexample: the claim says a supplied `manual_hours` is used
verbatim as the consumed hours, but with balance 2 and `manual_hours = 5` the
session records 2 consumed hours, not 5. -/
theorem C3_counterexample :
    (end_session 100 dbTwo "S1" (some 5) none).toOption.map (fun r => r.2.hours_used) =
      some 2 ∧ (2 : ℚ) ≠ 5 := by
  constructor
  · with_unfolding_all rfl
  · norm_num

/-- C3 (amended): a supplied `manual_hours` is used as the hours to deduct
with no recomputation from the timestamps (the recorded value does not depend
on `start_time`), but it is still clamped to the member's balance and floored
at zero; it is recorded verbatim exactly when it lies in `[0, balance]`. -/
theorem C3_end_session_manual (now : Int) (db : DB) (sid : String) (v : ℚ)
    (notes : Option String) (s : GamingSession) (m : Member)
    (hs : lookupA sid db.sessions = some s) (he : s.end_time = none)
    (hm : lookupA s.member_id db.members = some m) :
    (end_session now db sid (some v) notes).toOption.map (fun r => r.2.hours_used) =
      some (max 0 (min v m.balance_hours)) ∧
    (0 ≤ v → v ≤ m.balance_hours →
      (end_session now db sid (some v) notes).toOption.map (fun r => r.2.hours_used) = some v) := by
  have h1 : (end_session now db sid (some v) notes).toOption.map (fun r => r.2.hours_used) =
      some (max 0 (min v m.balance_hours)) := by
    rw [end_session_ok_eq now db sid (some v) notes s m hs he hm]
    simp only [Except.toOption, Option.map, clamp_eq]
  refine ⟨h1, fun hv hvb => ?_⟩
  rw [h1, min_eq_left hvb, max_eq_right hv]

/-- Witness for C3 (amended): `manual_hours = 3` against balance 6 is
recorded verbatim. -/
theorem C3_end_session_manual_witness :
    lookupA "S1" dbS.sessions = some sAct ∧ sAct.end_time = none ∧
    lookupA sAct.member_id dbS.members = some mA ∧ (0:ℚ) ≤ 3 ∧ (3:ℚ) ≤ mA.balance_hours ∧
    (end_session 100 dbS "S1" (some 3) none).toOption.map (fun r => r.2.hours_used) = some 3 :=
  ⟨rfl, rfl, rfl, by norm_num, by norm_num [Member.balance_hours, mA],
   (C3_end_session_manual 100 dbS "S1" 3 none sAct mA rfl rfl rfl).2
     (by norm_num) (by norm_num [Member.balance_hours, mA])⟩

/-- C10: ending an active session of a member with non-negative balance adds
an amount in `[0, balance_hours]` to the member's used hours, on both the
timed and the manual path, so used hours stay at most granted hours and the
balance stays non-negative. -/
theorem C10_end_session_keeps_balance (now : Int) (db : DB) (sid : String)
    (manual_hours : Option ℚ) (notes : Option String) (s : GamingSession) (m : Member)
    (hs : lookupA sid db.sessions = some s) (he : s.end_time = none)
    (hm : lookupA s.member_id db.members = some m) (hbal : 0 ≤ m.balance_hours) :
    ∀ db' s', end_session now db sid manual_hours notes = .ok (db', s') →
      0 ≤ s'.hours_used ∧ s'.hours_used ≤ m.balance_hours ∧
      lookupA s.member_id db'.members =
        some { m with total_hours_used := m.total_hours_used + s'.hours_used } ∧
      m.total_hours_used + s'.hours_used ≤ m.total_hours_granted ∧
      0 ≤ (Member.balance_hours
            { m with total_hours_used := m.total_hours_used + s'.hours_used }) := by
  intro db' s' hok
  rw [end_session_ok_eq now db sid manual_hours notes s m hs he hm] at hok
  simp only [Except.ok.injEq, Prod.mk.injEq] at hok
  obtain ⟨hdb, hs'⟩ := hok
  subst hdb
  subst hs'
  dsimp only
  simp only [Member.balance_hours] at hbal ⊢
  generalize (match manual_hours with
    | some h => h
    | none => round2 (((now - s.start_time : Int) : ℚ) / 3600)) = x
  refine ⟨?_, ?_, ?_, ?_, ?_⟩
  · split_ifs <;> linarith
  · split_ifs <;> linarith
  · simp only [lookupA_updateAssoc_self, hm, Option.map]
  · split_ifs <;> linarith
  · split_ifs <;> linarith

/-- Witness for C10: ending the 3h30m session of the balance-6 member yields
the concrete after-state `(dbSAfter, sAfter)` with 3.50 hours deducted. -/
theorem C10_end_session_keeps_balance_witness :
    lookupA "S1" dbS.sessions = some sAct ∧ sAct.end_time = none ∧
    lookupA sAct.member_id dbS.members = some mA ∧ (0:ℚ) ≤ mA.balance_hours ∧
    end_session 12600 dbS "S1" none none = .ok (dbSAfter, sAfter) ∧
    (0 ≤ sAfter.hours_used ∧ sAfter.hours_used ≤ mA.balance_hours ∧
      lookupA sAct.member_id dbSAfter.members =
        some { mA with total_hours_used := mA.total_hours_used + sAfter.hours_used } ∧
      mA.total_hours_used + sAfter.hours_used ≤ mA.total_hours_granted ∧
      0 ≤ (Member.balance_hours
            { mA with total_hours_used := mA.total_hours_used + sAfter.hours_used })) := by
  have hend : end_session 12600 dbS "S1" none none = .ok (dbSAfter, sAfter) := by
    with_unfolding_all rfl
  exact ⟨rfl, rfl, rfl, by norm_num [Member.balance_hours, mA], hend,
    C10_end_session_keeps_balance 12600 dbS "S1" none none sAct mA rfl rfl rfl
      (by norm_num [Member.balance_hours, mA]) dbSAfter sAfter hend⟩

/-- Claim C1: every successful `apply_rollover` (forced or not) sets the
purchase's `rollover_hours` to `min(balance_hours, hours_purchased)` floored
at zero, marks it completed with `rollover_applied_at = today`, stores the
updated purchase, and increases the member's granted hours by exactly that
amount. -/
theorem C1_apply_rollover_success (today : Int) (db : DB) (pid : String) (force : Bool)
    (p : Purchase) (m : Member) (p' : Purchase) (db' : DB)
    (hp : lookupA pid db.purchases = some p)
    (hm : lookupA p.member_id db.members = some m)
    (hok : apply_rollover today db pid force = (.ok p', db')) :
    p'.rollover_hours = some (max 0 (min m.balance_hours p.hours_purchased)) ∧
    p'.rollover_status = "completed" ∧
    p'.rollover_applied_at = some today ∧
    lookupA pid db'.purchases = some p' ∧
    lookupA p.member_id db'.members =
      some { m with total_hours_granted :=
               (m.total_hours_granted + max 0 (min m.balance_hours p.hours_purchased)) } := by
  unfold apply_rollover at hok
  rw [hp] at hok
  simp only [hm, if_nonpos_eq_max] at hok
  split_ifs at hok <;>
    simp only [Prod.mk.injEq, Except.ok.injEq, reduceCtorEq, false_and] at hok
  obtain ⟨h1, h2⟩ := hok
  subst h1
  subst h2
  refine ⟨rfl, rfl, rfl, ?_, ?_⟩
  · simp only [lookupA_updateAssoc_self, hp, Option.map]
  · simp only [lookupA_updateAssoc_self, hm, Option.map]

/-- Witness for C1: rolling over `pA` on day 500 (renewal `pRenew` present)
transfers `min(6, 5) = 5` hours and raises granted hours from 10 to 15. -/
theorem C1_apply_rollover_success_witness :
    lookupA "P1" dbA.purchases = some pA ∧
    lookupA pA.member_id dbA.members = some mA ∧
    apply_rollover 500 dbA "P1" false = (.ok pDone, dbADone) ∧
    (pDone.rollover_hours = some (max 0 (min mA.balance_hours pA.hours_purchased)) ∧
     pDone.rollover_status = "completed" ∧
     pDone.rollover_applied_at = some 500 ∧
     lookupA "P1" dbADone.purchases = some pDone ∧
     lookupA pA.member_id dbADone.members =
       some { mA with total_hours_granted :=
                (mA.total_hours_granted + max 0 (min mA.balance_hours pA.hours_purchased)) }) := by
  have hok : apply_rollover 500 dbA "P1" false = (.ok pDone, dbADone) := by
    with_unfolding_all rfl
  exact ⟨rfl, rfl, hok, C1_apply_rollover_success 500 dbA "P1" false pA mA pDone dbADone
    rfl rfl hok⟩

/-- Claim C4: the un-forced eligibility checks of `apply_rollover` on a
pending purchase: not yet past expiry fails with the not-yet-expired error and
no state change; past the rollover deadline the purchase is committed as
expired and the call fails with the deadline error, members untouched; within
the window but with no renewal purchase dated in `(expiry, deadline]` it fails
with the no-renewal error and no state change. -/
theorem C4_apply_rollover_guards (today : Int) (db : DB) (pid : String)
    (p : Purchase) (m : Member)
    (hp : lookupA pid db.purchases = some p)
    (hpend : p.rollover_status = "pending")
    (hm : lookupA p.member_id db.members = some m) :
    (today ≤ p.expiry_date →
      apply_rollover today db pid false = (.error (.notYetExpired p.expiry_date), db)) ∧
    (p.expiry_date < today → p.rollover_deadline < today →
      apply_rollover today db pid false =
        (.error (.deadlinePassed p.rollover_deadline),
         { db with purchases :=
             updateAssoc pid (fun _ => { p with rollover_status := "expired" }) db.purchases }) ∧
      lookupA pid (updateAssoc pid (fun _ => { p with rollover_status := "expired" })
          db.purchases) = some { p with rollover_status := "expired" }) ∧
    (p.expiry_date < today → today ≤ p.rollover_deadline → hasRenewal db p = false →
      apply_rollover today db pid false = (.error .noRenewal, db)) := by
  have hterm : ¬ (p.rollover_status = "completed" ∨ p.rollover_status = "expired") := by
    rw [hpend]; rintro (h | h) <;> exact absurd h (by decide)
  have hmem : ¬ (True ∧ (lookupA p.member_id db.members).isNone = true) := by
    rw [hm]
    simp
  refine ⟨fun hle => ?_, fun hgt hdl => ⟨?_, ?_⟩, fun hgt hle hren => ?_⟩
  · unfold apply_rollover
    simp only [hp]
    rw [if_neg hterm, if_pos ⟨trivial, hle⟩]
  · unfold apply_rollover
    simp only [hp]
    rw [if_neg hterm, if_neg (fun h => absurd h.2 (not_le.mpr hgt)),
      if_pos ⟨trivial, hdl⟩]
  · simp only [lookupA_updateAssoc_self, hp, Option.map]
  · unfold apply_rollover
    simp only [hp]
    rw [if_neg hterm, if_neg (fun h => absurd h.2 (not_le.mpr hgt)),
      if_neg (fun h => absurd h.2 (not_lt.mpr hle)), if_neg hmem,
      if_pos ⟨trivial, hren⟩]

/-- Witness for C4: the three failure scenarios on `pA` — day 365 (`today ==
expiry_date`), day 600 (past the deadline 545), and day 500 with no renewal
purchase present. -/
theorem C4_apply_rollover_guards_witness :
    (lookupA "P1" dbA.purchases = some pA ∧ pA.rollover_status = "pending" ∧
      lookupA pA.member_id dbA.members = some mA ∧ (365:Int) ≤ pA.expiry_date ∧
      apply_rollover 365 dbA "P1" false = (.error (.notYetExpired pA.expiry_date), dbA)) ∧
    (pA.expiry_date < 600 ∧ pA.rollover_deadline < 600 ∧
      apply_rollover 600 dbA "P1" false =
        (.error (.deadlinePassed pA.rollover_deadline),
         { dbA with purchases := updateAssoc "P1" (fun _ => { pA with rollover_status := "expired" }) dbA.purchases })) ∧
    (lookupA "P1" dbB.purchases = some pA ∧ lookupA pA.member_id dbB.members = some mA ∧
      pA.expiry_date < 500 ∧ (500:Int) ≤ pA.rollover_deadline ∧ hasRenewal dbB pA = false ∧
      apply_rollover 500 dbB "P1" false = (.error .noRenewal, dbB)) :=
  ⟨⟨rfl, rfl, rfl, by decide,
    (C4_apply_rollover_guards 365 dbA "P1" pA mA rfl rfl rfl).1 (by decide)⟩,
   ⟨by decide, by decide,
    ((C4_apply_rollover_guards 600 dbA "P1" pA mA rfl rfl rfl).2.1 (by decide) (by decide)).1⟩,
   ⟨rfl, rfl, by decide, by decide, by decide,
    (C4_apply_rollover_guards 500 dbB "P1" pA mA rfl rfl rfl).2.2 (by decide) (by decide)
      (by decide)⟩⟩

/-- Claim C5 (code divergence): `apply_rollover` only rejects the statuses
`"completed"` and `"expired"`; a purchase in the terminal initial state
`"not_applicable"` passes the guard, and a forced call completes its rollover
and grants hours instead of failing with an invalid-state error. -/
theorem C5_not_applicable_not_rejected :
    (apply_rollover 600 dbNA "P1" true).1 =
      .ok { pNA with rollover_hours := some 5, rollover_status := "completed"
                     rollover_applied_at := some 600 } ∧
    lookupA "M1" (apply_rollover 600 dbNA "P1" true).2.members =
      some { mA with total_hours_granted := 15 } := by
  constructor
  · with_unfolding_all rfl
  · with_unfolding_all rfl

/-- Row-wise effect of the sweep on lookups: the row is set to `"expired"`
exactly when it was pending and past its deadline. -/
theorem lookupA_sweep_map (today : Int) (l : List (String × Purchase)) (k : String)
    (p : Purchase) (h : lookupA k l = some p) :
    lookupA k (l.map fun row =>
        if sweepEligible today row.2 then (row.1, { row.2 with rollover_status := "expired" })
        else row) =
      some (if sweepEligible today p then { p with rollover_status := "expired" } else p) := by
  induction l with
  | nil => simp [lookupA] at h
  | cons hd tl ih =>
      obtain ⟨k', v⟩ := hd
      by_cases hk : k' = k
      · subst hk
        rw [lookupA, if_pos rfl] at h
        obtain rfl : v = p := by injection h
        by_cases hc : sweepEligible today v
        · simp only [List.map]
          rw [if_pos hc, if_pos hc]
          simp [lookupA]
        · simp only [List.map]
          rw [if_neg hc, if_neg hc]
          simp [lookupA]
      · rw [lookupA, if_neg hk] at h
        by_cases hc : sweepEligible today v
        · simp only [List.map]
          rw [if_pos hc]
          simp [lookupA, hk, ih h]
        · simp only [List.map]
          rw [if_neg hc]
          simp [lookupA, hk, ih h]

/-- After one sweep pass no row is still pending and past the deadline. -/
theorem sweep_map_no_eligible (today : Int) (l : List (String × Purchase)) :
    (l.map fun row =>
        if sweepEligible today row.2 then (row.1, { row.2 with rollover_status := "expired" })
        else row).filter (fun row => sweepEligible today row.2) = [] := by
  induction l with
  | nil => rfl
  | cons hd tl ih =>
      obtain ⟨k', v⟩ := hd
      by_cases hc : sweepEligible today v
      · have hex : sweepEligible today { v with rollover_status := "expired" } = false := rfl
        simp [List.map, List.filter, hc, hex, ih]
      · simp [List.map, List.filter, hc, ih]

/-- Claim C7: the sweep expires exactly the pending purchases whose rollover
deadline is strictly before today, touches no member or session, returns the
number of rows transitioned, and a second run in succession transitions
zero purchases. -/
theorem C7_sweep (today : Int) (db : DB) :
    (check_and_expire_rollovers today db).2.members = db.members ∧
    (check_and_expire_rollovers today db).2.sessions = db.sessions ∧
    (check_and_expire_rollovers today db).1 =
      (db.purchases.filter fun row => sweepEligible today row.2).length ∧
    (∀ k p, lookupA k db.purchases = some p →
      lookupA k (check_and_expire_rollovers today db).2.purchases =
        some (if sweepEligible today p then { p with rollover_status := "expired" } else p)) ∧
    (check_and_expire_rollovers today (check_and_expire_rollovers today db).2).1 = 0 := by
  refine ⟨rfl, rfl, rfl, ?_, ?_⟩
  · intro k p hp
    exact lookupA_sweep_map today db.purchases k p hp
  · show ((check_and_expire_rollovers today db).2.purchases.filter
        (fun row => sweepEligible today row.2)).length = 0
    rw [show (check_and_expire_rollovers today db).2.purchases =
        db.purchases.map (fun row =>
          if sweepEligible today row.2 then (row.1, { row.2 with rollover_status := "expired" })
          else row) from rfl]
    rw [sweep_map_no_eligible]
    rfl

/-- Witness for C7: sweeping `dbA` on day 600 expires `pA` (deadline 545),
leaves `pRenew` pending, and a second sweep transitions nothing. -/
theorem C7_sweep_witness :
    lookupA "P1" dbA.purchases = some pA ∧ lookupA "P2" dbA.purchases = some pRenew ∧
    lookupA "P1" (check_and_expire_rollovers 600 dbA).2.purchases =
      some (if sweepEligible 600 pA then { pA with rollover_status := "expired" } else pA) ∧
    lookupA "P2" (check_and_expire_rollovers 600 dbA).2.purchases =
      some (if sweepEligible 600 pRenew then { pRenew with rollover_status := "expired" }
            else pRenew) ∧
    (check_and_expire_rollovers 600 dbA).1 =
      (dbA.purchases.filter fun row => sweepEligible 600 row.2).length ∧
    (check_and_expire_rollovers 600 (check_and_expire_rollovers 600 dbA).2).1 = 0 :=
  ⟨rfl, rfl,
   (C7_sweep 600 dbA).2.2.2.1 "P1" pA rfl,
   (C7_sweep 600 dbA).2.2.2.1 "P2" pRenew rfl,
   (C7_sweep 600 dbA).2.2.1,
   (C7_sweep 600 dbA).2.2.2.2⟩

/-- Claim C8: `start_session` fails with the not-found error for an unknown
member; with the plan-expired error for an expired member; with the
no-remaining-hours error when the balance is not strictly positive (as for a
member whose granted hours equal their used hours); with the conflict error
when the member already has an active session; and on success creates a
session with no end time (status active) and zero consumed hours. -/
theorem C8_start_session (today now : Int) (db : DB) (nid mid : String)
    (st notes : Option String) :
    (lookupA mid db.members = none →
      start_session today now db nid mid st notes = .error (.notFound "Member" mid)) ∧
    (∀ m, lookupA mid db.members = some m → m.is_expired today = true →
      start_session today now db nid mid st notes = .error .planExpired) ∧
    (∀ m, lookupA mid db.members = some m → m.is_expired today = false →
      m.balance_hours ≤ 0 →
      start_session today now db nid mid st notes = .error .noBalance) ∧
    (∀ m, lookupA mid db.members = some m → m.is_expired today = false →
      0 < m.balance_hours → hasActiveSession db mid = true →
      start_session today now db nid mid st notes = .error .conflict) ∧
    (∀ m, lookupA mid db.members = some m → m.is_expired today = false →
      0 < m.balance_hours → hasActiveSession db mid = false →
      start_session today now db nid mid st notes =
        .ok ({ db with sessions := db.sessions ++
                 [(nid, { member_id := mid, start_time := now, end_time := none,
                          hours_used := 0, station_id := st, notes := notes })] },
             { member_id := mid, start_time := now, end_time := none,
               hours_used := 0, station_id := st, notes := notes }) ∧
      GamingSession.status
        { member_id := mid, start_time := now, end_time := none,
          hours_used := 0, station_id := st, notes := notes } = .active) := by
  refine ⟨fun hnone => ?_, fun m hm hexp => ?_, fun m hm hexp hbal => ?_,
    fun m hm hexp hbal hact => ?_, fun m hm hexp hbal hact => ⟨?_, rfl⟩⟩
  · unfold start_session
    rw [hnone]
    rfl
  · unfold start_session
    rw [hm]
    simp only [hexp, if_true]
    rfl
  · unfold start_session
    rw [hm]
    simp only [hexp, Bool.false_eq_true, if_false, if_pos hbal]
    rfl
  · unfold start_session
    rw [hm]
    simp only [hexp, Bool.false_eq_true, if_false, if_neg (not_le.mpr hbal), hact, if_true]
    rfl
  · unfold start_session
    rw [hm]
    simp only [hexp, Bool.false_eq_true, if_false, if_neg (not_le.mpr hbal), hact,
      Bool.false_eq_true, if_false]
    rfl

/-- Witness for C8: the spec's scenarios — an unknown member id; the member
with 20 granted and 20 used hours (balance 0) cannot start; the member with
an active session gets a conflict; a member with positive balance, unexpired
plan and no active session starts a session that is active with zero hours. -/
theorem C8_start_session_witness :
    (lookupA "NOPE" dbStart.members = none ∧
      start_session 100 0 dbStart "S9" "NOPE" none none = .error (.notFound "Member" "NOPE")) ∧
    (lookupA "M1" dbZero.members = some mZ ∧ mZ.is_expired 100 = false ∧
      mZ.balance_hours ≤ 0 ∧
      start_session 100 0 dbZero "S9" "M1" none none = .error .noBalance) ∧
    (lookupA "M1" dbS.members = some mA ∧ mA.is_expired 100 = false ∧
      0 < mA.balance_hours ∧ hasActiveSession dbS "M1" = true ∧
      start_session 100 0 dbS "S9" "M1" none none = .error .conflict) ∧
    (lookupA "M1" dbStart.members = some mA ∧ mA.is_expired 100 = false ∧
      0 < mA.balance_hours ∧ hasActiveSession dbStart "M1" = false ∧
      start_session 100 0 dbStart "S9" "M1" none none =
        .ok ({ dbStart with sessions := dbStart.sessions ++
                 [("S9", { member_id := "M1", start_time := 0, end_time := none,
                           hours_used := 0, station_id := none, notes := none })] },
             { member_id := "M1", start_time := 0, end_time := none,
               hours_used := 0, station_id := none, notes := none }) ∧
      GamingSession.status
        { member_id := "M1", start_time := 0, end_time := none,
          hours_used := 0, station_id := none, notes := none } = .active) :=
  ⟨⟨rfl, (C8_start_session 100 0 dbStart "S9" "NOPE" none none).1 rfl⟩,
   ⟨rfl, rfl, by norm_num [Member.balance_hours, mZ],
    (C8_start_session 100 0 dbZero "S9" "M1" none none).2.2.1 mZ rfl rfl
      (by norm_num [Member.balance_hours, mZ])⟩,
   ⟨rfl, rfl, by norm_num [Member.balance_hours, mA], rfl,
    (C8_start_session 100 0 dbS "S9" "M1" none none).2.2.2.1 mA rfl rfl
      (by norm_num [Member.balance_hours, mA]) rfl⟩,
   ⟨rfl, rfl, by norm_num [Member.balance_hours, mA], rfl,
    (C8_start_session 100 0 dbStart "S9" "M1" none none).2.2.2.2 mA rfl rfl
      (by norm_num [Member.balance_hours, mA]) rfl⟩⟩

/-- Claim C9: a purchase created with any valid purchase date gets
`expiry_date = purchase_date + 365` and `rollover_deadline = expiry_date +
180`, exactly; creation leaves every existing purchase untouched, and neither
`apply_rollover` (in any branch, forced or not) nor the sweep ever changes any
purchase's `expiry_date` or `rollover_deadline`. -/
theorem C9_purchase_dates (today : Int) (db : DB) :
    (∀ nid mid h a pm pr pd member, lookupA mid db.members = some member →
      0 < h → 0 ≤ a →
      ∃ db', create_purchase today db nid mid h a pm pr pd =
          .ok (db', mkPurchase today mid h a pm pr pd) ∧
        db'.purchases = db.purchases ++ [(nid, mkPurchase today mid h a pm pr pd)] ∧
        (mkPurchase today mid h a pm pr pd).purchase_date = pd.getD today ∧
        (mkPurchase today mid h a pm pr pd).expiry_date =
          (mkPurchase today mid h a pm pr pd).purchase_date + 365 ∧
        (mkPurchase today mid h a pm pr pd).rollover_deadline =
          (mkPurchase today mid h a pm pr pd).expiry_date + 180 ∧
        (∀ k q, lookupA k db.purchases = some q → lookupA k db'.purchases = some q)) ∧
    (∀ pid force k q q', lookupA k db.purchases = some q →
      lookupA k (apply_rollover today db pid force).2.purchases = some q' →
      q'.expiry_date = q.expiry_date ∧ q'.rollover_deadline = q.rollover_deadline) ∧
    (∀ k q q', lookupA k db.purchases = some q →
      lookupA k (check_and_expire_rollovers today db).2.purchases = some q' →
      q'.expiry_date = q.expiry_date ∧ q'.rollover_deadline = q.rollover_deadline) := by
  refine ⟨?_, ?_, ?_⟩
  · intro nid mid h a pm pr pd member hml hh ha
    have hok : create_purchase today db nid mid h a pm pr pd =
        .ok ({ db with
                 members := updateAssoc mid (fun _ =>
                     { member with
                         total_hours_granted := member.total_hours_granted + h
                         expiry_date :=
                           match member.expiry_date with
                           | none => some (mkPurchase today mid h a pm pr pd).expiry_date
                           | some e =>
                               if e < (mkPurchase today mid h a pm pr pd).expiry_date then
                                 some (mkPurchase today mid h a pm pr pd).expiry_date
                               else some e })
                   db.members
                 purchases := db.purchases ++ [(nid, mkPurchase today mid h a pm pr pd)] },
             mkPurchase today mid h a pm pr pd) := by
      unfold create_purchase
      simp only [hml]
      rw [if_neg (not_le.mpr hh), if_neg (not_lt.mpr ha)]
      rfl
    exact ⟨_, hok, rfl, rfl, rfl, rfl,
      fun k q hq => lookupA_append_of_some k db.purchases _ q hq⟩
  · intro pid force k q q' hq hq'
    unfold apply_rollover at hq'
    cases hpl : lookupA pid db.purchases with
    | none =>
        rw [hpl] at hq'
        dsimp only at hq'
        rw [hq] at hq'
        obtain rfl : q = q' := by injection hq'
        exact ⟨rfl, rfl⟩
    | some purchase =>
        simp only [hpl] at hq'
        split_ifs at hq'
        case _ =>
          dsimp only at hq'
          rw [hq] at hq'
          obtain rfl : q = q' := by injection hq'
          exact ⟨rfl, rfl⟩
        case _ =>
          dsimp only at hq'
          rw [hq] at hq'
          obtain rfl : q = q' := by injection hq'
          exact ⟨rfl, rfl⟩
        case _ =>
          dsimp only at hq'
          by_cases hk : k = pid
          · subst hk
            have hpq : purchase = q := by
              rw [hpl] at hq
              injection hq
            subst hpq
            rw [lookupA_updateAssoc_self, hq] at hq'
            simp only [Option.map] at hq'
            obtain rfl : _ = q' := by injection hq'
            exact ⟨rfl, rfl⟩
          · rw [lookupA_updateAssoc_ne pid k _ _ hk] at hq'
            rw [hq] at hq'
            obtain rfl : q = q' := by injection hq'
            exact ⟨rfl, rfl⟩
        case _ =>
          dsimp only at hq'
          rw [hq] at hq'
          obtain rfl : q = q' := by injection hq'
          exact ⟨rfl, rfl⟩
        case _ =>
          dsimp only at hq'
          rw [hq] at hq'
          obtain rfl : q = q' := by injection hq'
          exact ⟨rfl, rfl⟩
        case _ =>
          cases hml : lookupA purchase.member_id db.members with
          | none =>
              rw [hml] at hq'
              dsimp only at hq'
              rw [hq] at hq'
              obtain rfl : q = q' := by injection hq'
              exact ⟨rfl, rfl⟩
          | some member =>
              simp only [hml] at hq'
              by_cases hk : k = pid
              · subst hk
                have hpq : purchase = q := by
                  rw [hpl] at hq
                  injection hq
                subst hpq
                rw [lookupA_updateAssoc_self, hq] at hq'
                simp only [Option.map] at hq'
                obtain rfl : _ = q' := by injection hq'
                exact ⟨rfl, rfl⟩
              · rw [lookupA_updateAssoc_ne pid k _ _ hk] at hq'
                rw [hq] at hq'
                obtain rfl : q = q' := by injection hq'
                exact ⟨rfl, rfl⟩
  · intro k q q' hq hq'
    rw [show (check_and_expire_rollovers today db).2.purchases =
        db.purchases.map (fun row =>
          if sweepEligible today row.2 then (row.1, { row.2 with rollover_status := "expired" })
          else row) from rfl] at hq'
    rw [lookupA_sweep_map today db.purchases k q hq] at hq'
    obtain rfl : _ = q' := by injection hq'
    by_cases hc : sweepEligible today q
    · rw [if_pos hc]
      exact ⟨rfl, rfl⟩
    · rw [if_neg hc]
      exact ⟨rfl, rfl⟩

/-- Witness for C9: creating a 20-hour purchase on day 400 yields expiry day
765 and rollover deadline day 945; the deadline-passed rollover on day 600
and the sweep on day 600 leave `pA`'s dates 365/545 unchanged. -/
theorem C9_purchase_dates_witness :
    (lookupA "M1" dbB.members = some mA ∧ (0:ℚ) < 20 ∧ (0:ℚ) ≤ 400 ∧
      (∃ db', create_purchase 400 dbB "P2" "M1" 20 400 "cash" none none =
          .ok (db', mkPurchase 400 "M1" 20 400 "cash" none none) ∧
        db'.purchases = dbB.purchases ++ [("P2", mkPurchase 400 "M1" 20 400 "cash" none none)] ∧
        (mkPurchase 400 "M1" 20 400 "cash" none none).purchase_date = Option.getD none 400 ∧
        (mkPurchase 400 "M1" 20 400 "cash" none none).expiry_date =
          (mkPurchase 400 "M1" 20 400 "cash" none none).purchase_date + 365 ∧
        (mkPurchase 400 "M1" 20 400 "cash" none none).rollover_deadline =
          (mkPurchase 400 "M1" 20 400 "cash" none none).expiry_date + 180 ∧
        (∀ k q, lookupA k dbB.purchases = some q → lookupA k db'.purchases = some q))) ∧
    (lookupA "P1" dbA.purchases = some pA ∧
      lookupA "P1" (apply_rollover 600 dbA "P1" false).2.purchases =
        some { pA with rollover_status := "expired" } ∧
      ({ pA with rollover_status := "expired" } : Purchase).expiry_date = pA.expiry_date ∧
      ({ pA with rollover_status := "expired" } : Purchase).rollover_deadline =
        pA.rollover_deadline) ∧
    (lookupA "P1" (check_and_expire_rollovers 600 dbA).2.purchases =
        some { pA with rollover_status := "expired" } ∧
      ({ pA with rollover_status := "expired" } : Purchase).expiry_date = pA.expiry_date ∧
      ({ pA with rollover_status := "expired" } : Purchase).rollover_deadline =
        pA.rollover_deadline) := by
  have hroll : lookupA "P1" (apply_rollover 600 dbA "P1" false).2.purchases =
      some { pA with rollover_status := "expired" } := by
    with_unfolding_all rfl
  have hsweep : lookupA "P1" (check_and_expire_rollovers 600 dbA).2.purchases =
      some { pA with rollover_status := "expired" } := by
    with_unfolding_all rfl
  refine ⟨⟨rfl, by norm_num, by norm_num, ?_⟩, ⟨rfl, hroll, ?_, ?_⟩, ⟨hsweep, ?_, ?_⟩⟩
  · exact (C9_purchase_dates 400 dbB).1 "P2" "M1" 20 400 "cash" none none mA rfl
      (by norm_num) (by norm_num)
  · exact ((C9_purchase_dates 600 dbA).2.1 "P1" false "P1" pA
      { pA with rollover_status := "expired" } rfl hroll).1
  · exact ((C9_purchase_dates 600 dbA).2.1 "P1" false "P1" pA
      { pA with rollover_status := "expired" } rfl hroll).2
  · exact ((C9_purchase_dates 600 dbA).2.2 "P1" pA
      { pA with rollover_status := "expired" } rfl hsweep).1
  · exact ((C9_purchase_dates 600 dbA).2.2 "P1" pA
      { pA with rollover_status := "expired" } rfl hsweep).2

/-- Characters surviving `dropCountryCode` come from the input. -/
theorem mem_dropCountryCode (l : List Char) (c : Char) (h : c ∈ dropCountryCode l) :
    c ∈ l := by
  unfold dropCountryCode at h
  split at h
  · exact List.mem_cons_of_mem _ (List.mem_cons_of_mem _ h)
  · exact h

/-- Characters surviving `dropTrunkZero` come from the input. -/
theorem mem_dropTrunkZero (l : List Char) (c : Char) (h : c ∈ dropTrunkZero l) :
    c ∈ l := by
  unfold dropTrunkZero at h
  split at h
  · exact List.mem_cons_of_mem _ h
  · exact h

/-- Characters surviving `lastTen` come from the input. -/
theorem mem_lastTen (l : List Char) (c : Char) (h : c ∈ lastTen l) : c ∈ l := by
  unfold lastTen at h
  split at h
  · exact List.drop_subset _ _ h
  · exact h

/-- A successful normalization returns exactly 10 characters, all digits. -/
theorem normalize_mobile_ok_shape (x y : String) (h : normalize_mobile x = .ok y) :
    y.toList.length = 10 ∧ ∀ c ∈ y.toList, c.isDigit = true := by
  simp only [normalize_mobile] at h
  split_ifs at h with hlen
  obtain rfl : String.mk (lastTen (dropTrunkZero (dropCountryCode
      (stripNonDigits x.toList)))) = y := by injection h
  refine ⟨hlen, fun c hc => ?_⟩
  have h1 : c ∈ stripNonDigits x.toList :=
    mem_dropCountryCode _ c (mem_dropTrunkZero _ c (mem_lastTen _ c hc))
  exact (List.mem_filter.mp h1).2

/-- Claim C6 counterexample: the claim asserts idempotence for every input on
which `normalize_mobile` succeeds, but `"06312345678"` normalizes to
`"6312345678"`, on which a second normalization strips the apparent `"63"`
country code, leaving 8 digits, and fails. -/
theorem C6_counterexample :
    normalize_mobile "06312345678" = .ok "6312345678" ∧
    normalize_mobile "6312345678" =
      .error "Invalid mobile number: 6312345678. Must be 10 digits after normalization." :=
  ⟨rfl, rfl⟩

/-- Claim C6 (amended): the normalizer is idempotent on every success result
that does not begin with the country-code digits `"63"` or the trunk `"0"`
(the two drop steps then leave it unchanged); the spec's two examples both
normalize to `"9171234567"`. -/
theorem C6_normalize_idempotent_guarded :
    (∀ x y, normalize_mobile x = .ok y →
      dropCountryCode y.toList = y.toList →
      dropTrunkZero y.toList = y.toList →
      normalize_mobile y = .ok y) ∧
    normalize_mobile "+639171234567" = .ok "9171234567" ∧
    normalize_mobile "09171234567" = .ok "9171234567" := by
  refine ⟨?_, rfl, rfl⟩
  intro x y hok h63 h0
  obtain ⟨hlen, hdig⟩ := normalize_mobile_ok_shape x y hok
  simp only [normalize_mobile]
  have hstrip : stripNonDigits y.toList = y.toList :=
    List.filter_eq_self.mpr hdig
  rw [hstrip, h63, h0]
  have hlast : lastTen y.toList = y.toList := by
    unfold lastTen
    rw [hlen]
    simp
  rw [hlast, if_pos hlen]
  rfl

/-- Witness for C6 (amended): applying the guarded idempotence at the spec's
example, whose normal form `"9171234567"` starts with neither `"63"` nor
`"0"`. -/
theorem C6_normalize_idempotent_guarded_witness :
    normalize_mobile "+639171234567" = .ok "9171234567" ∧
    dropCountryCode ("9171234567" : String).toList = ("9171234567" : String).toList ∧
    dropTrunkZero ("9171234567" : String).toList = ("9171234567" : String).toList ∧
    normalize_mobile "9171234567" = .ok "9171234567" :=
  ⟨rfl, rfl, rfl,
   C6_normalize_idempotent_guarded.1 "+639171234567" "9171234567" rfl rfl rfl⟩

end Untangle
